import Mathlib

/-! Runtime bindings of TensorRT-LLM (`cpp/tensorrt_llm/pybind/runtime/bindings.cpp`)

A shallow embedding of the binding layer: the `PyITensor` trampoline, the
`BufferManager`, `SpeculativeDecodingMode`, `TllmRuntime`, `Request`,
`LookaheadDecodingBuffers` and `ExplicitDraftTokensBuffers::Inputs` bindings.

A call that the binding forwards to the scripting side or to the native runtime
is modelled by the value that is forwarded: the name looked up, the argument list
handed over, and the result handed back.
-/

namespace TensorrtLlm

/-! ## Values crossing the scripting boundary -/

/-- Objects handed between the native side and the scripting side. -/
inductive PyObj where
  | none
  | int (v : Int)
  | str (s : String)
  | shape (dims : List Int)
  | addr (p : Nat)
  deriving DecidableEq, Repr

/-- A scripting-side method: it receives the positional arguments (the receiver
excluded) and the state of the scripting-side object, and hands back either a
result or a raised error, together with the new state. -/
abbrev PyMethod (σ : Type) := List PyObj → σ → Except String PyObj × σ

/-- The scripting-side subclass of `ITensor`: the attributes it defines, by name.
The `ITensor` binding itself (`py::classh<tr::ITensor, PyITensor>(m, "ITensor").def(py::init())`)
registers a constructor and no method, so a name resolves only if the subclass defines it. -/
structure PySubclass (σ : Type) where
  attr : String → Option (PyMethod σ)

/-- Source: `PYBIND11_OVERRIDE_PURE(ret, cname, fn, args...)`: look the override `fn` up on the
scripting-side object; when there is one, call it with exactly `args...` and return what
it returns; when there is none, fail with
`Tried to call pure virtual function "cname::fn"`. The conversion of the returned object
to the native return type is pybind11's and is kept abstract. -/
def PYBIND11_OVERRIDE_PURE {σ : Type} (self : PySubclass σ) (cname fn : String)
    (args : List PyObj) (st : σ) : Except String PyObj × σ :=
  match self.attr fn with
  | some override => override args st
  | none => (.error ("Tried to call pure virtual function \"" ++ cname ++ "::" ++ fn ++ "\""), st)

/-! ## `class PyITensor : public ITensor` -/

namespace PyITensor

variable {σ : Type}

/-- Source: `void* data() override`. -/
def data (self : PySubclass σ) (st : σ) : Except String PyObj × σ :=
  PYBIND11_OVERRIDE_PURE self "ITensor" "data" [] st

/-- Source: `void const* data() const override`. -/
def data_const (self : PySubclass σ) (st : σ) : Except String PyObj × σ :=
  PYBIND11_OVERRIDE_PURE self "ITensor" "data" [] st

/-- Source: `std::size_t getSize() const override`. -/
def getSize (self : PySubclass σ) (st : σ) : Except String PyObj × σ :=
  PYBIND11_OVERRIDE_PURE self "ITensor" "getSize" [] st

/-- Source: `std::size_t getCapacity() const override`. -/
def getCapacity (self : PySubclass σ) (st : σ) : Except String PyObj × σ :=
  PYBIND11_OVERRIDE_PURE self "ITensor" "getCapacity" [] st

/-- Source: `DataType getDataType() const override`. -/
def getDataType (self : PySubclass σ) (st : σ) : Except String PyObj × σ :=
  PYBIND11_OVERRIDE_PURE self "ITensor" "getDataType" [] st

/-- Source: `tr::MemoryType getMemoryType() const override`. -/
def getMemoryType (self : PySubclass σ) (st : σ) : Except String PyObj × σ :=
  PYBIND11_OVERRIDE_PURE self "ITensor" "getMemoryType" [] st

/-- Source: `char const* getMemoryTypeName() const override`. -/
def getMemoryTypeName (self : PySubclass σ) (st : σ) : Except String PyObj × σ :=
  PYBIND11_OVERRIDE_PURE self "ITensor" "getMemoryTypeName" [] st

/-- Source: `virtual void resize(std::size_t newSize) override`: the argument list of the
override call in the source is empty, `newSize` is not among the forwarded arguments. -/
def resize (self : PySubclass σ) (newSize : Nat) (st : σ) : Except String PyObj × σ :=
  let _ := newSize
  PYBIND11_OVERRIDE_PURE self "ITensor" "resize" [] st

/-- Source: `void release() override`. -/
def release (self : PySubclass σ) (st : σ) : Except String PyObj × σ :=
  PYBIND11_OVERRIDE_PURE self "ITensor" "release" [] st

/-- Source: `Shape const& getShape() const override`. -/
def getShape (self : PySubclass σ) (st : σ) : Except String PyObj × σ :=
  PYBIND11_OVERRIDE_PURE self "ITensor" "getShape" [] st

/-- Source: `void reshape(Shape const& dims) override`: `dims` is forwarded. -/
def reshape (self : PySubclass σ) (dims : List Int) (st : σ) : Except String PyObj × σ :=
  PYBIND11_OVERRIDE_PURE self "ITensor" "reshape" [PyObj.shape dims] st

end PyITensor

/-- The eleven virtual operations of the trampoline, with their native arguments. -/
inductive VirtualOp where
  | data
  | dataConst
  | getSize
  | getCapacity
  | getDataType
  | getMemoryType
  | getMemoryTypeName
  | resize (newSize : Nat)
  | release
  | getShape
  | reshape (dims : List Int)
  deriving DecidableEq, Repr

/-- The scripting-side name each virtual operation is dispatched under. -/
def VirtualOp.pyName : VirtualOp → String
  | .data => "data"
  | .dataConst => "data"
  | .getSize => "getSize"
  | .getCapacity => "getCapacity"
  | .getDataType => "getDataType"
  | .getMemoryType => "getMemoryType"
  | .getMemoryTypeName => "getMemoryTypeName"
  | .resize _ => "resize"
  | .release => "release"
  | .getShape => "getShape"
  | .reshape _ => "reshape"

/-- The argument list each virtual operation hands to its override, as written in the
argument position of its `PYBIND11_OVERRIDE_PURE`. -/
def VirtualOp.pyArgs : VirtualOp → List PyObj
  | .reshape dims => [PyObj.shape dims]
  | _ => []

/-- A native call of a virtual operation on a `PyITensor`. -/
def PyITensor.call {σ : Type} (self : PySubclass σ) (op : VirtualOp) (st : σ) :
    Except String PyObj × σ :=
  match op with
  | .data => PyITensor.data self st
  | .dataConst => PyITensor.data_const self st
  | .getSize => PyITensor.getSize self st
  | .getCapacity => PyITensor.getCapacity self st
  | .getDataType => PyITensor.getDataType self st
  | .getMemoryType => PyITensor.getMemoryType self st
  | .getMemoryTypeName => PyITensor.getMemoryTypeName self st
  | .resize newSize => PyITensor.resize self newSize st
  | .release => PyITensor.release self st
  | .getShape => PyITensor.getShape self st
  | .reshape dims => PyITensor.reshape self dims st

/-- A scripting-side tensor whose state is its logical size: `resize(self, new_size)`
takes exactly one argument and sets the size, `getSize(self)` reads it. Any other
arity is a `TypeError`, as in the scripting language. -/
def sizedSubclass : PySubclass Nat where
  attr := fun name =>
    if name = "resize" then
      some (fun args st =>
        match args with
        | [PyObj.int n] => (.ok PyObj.none, n.toNat)
        | _ => (.error "TypeError: resize() takes exactly one argument", st))
    else if name = "getSize" then
      some (fun args st =>
        match args with
        | [] => (.ok (PyObj.int st), st)
        | _ => (.error "TypeError: getSize() takes no argument", st))
    else none

/-! ## `BufferManager` -/

/-- A `tr::CudaStream`, identified by the `cudaStream_t` handle given as `stream_ptr`. -/
structure CudaStream where
  stream : Nat
  deriving DecidableEq, Repr

/-- Source: `using CudaStreamPtr = std::shared_ptr<tr::CudaStream>`. -/
abbrev CudaStreamPtr := CudaStream

/-- Modelled from the spec: the native class `tr::BufferManager` (`bufferManager.h` is not
in the source tree). The manager is the "single owner of one execution stream", and pool
trimming is "configurable at construction": the object holds the stream and the flag it
was constructed with. -/
structure BufferManager where
  mStream : CudaStreamPtr
  mTrimPool : Bool
  deriving DecidableEq, Repr

/-- Modelled from the spec: `tr::BufferManager::getStream`, the one stream the manager owns. -/
def BufferManager.getStream (self : BufferManager) : CudaStreamPtr :=
  self.mStream

/-- Source: `py::init<CudaStreamPtr, bool>(), py::arg("stream"), py::arg("trim_pool") = false`:
an omitted `trim_pool` is `none` and takes the default of the binding. -/
def BufferManager.pyInit (stream : CudaStreamPtr) (trim_pool : Option Bool) : BufferManager :=
  BufferManager.mk stream (trim_pool.getD false)

/-- Source: `def_property_readonly("stream", &tr::BufferManager::getStream)`. -/
def BufferManager.pyStream (self : BufferManager) : CudaStreamPtr :=
  self.getStream

/-! ## `SpeculativeDecodingMode` -/

/-- Modelled from the spec: the native class `tr::SpeculativeDecodingMode`
(`speculativeDecodingMode.h` is not in the source tree). The mode is "one-of {None,
DraftTokensExternal, Medusa, LookaheadDecoding, ExplicitDraftTokens}, stored as a
bitset-like discriminant", with "no stored extra state beyond the discriminant". -/
structure SpeculativeDecodingMode where
  mState : Nat
  deriving DecidableEq, Repr

namespace SpeculativeDecodingMode

/-- Modelled from the spec: the flag of each mode in the bitset discriminant, one bit per
mode, in the order the spec lists the modes. -/
def kNone : Nat := 1 <<< 0

/-- Modelled from the spec: flag of the second listed mode. -/
def kDraftTokensExternal : Nat := 1 <<< 1

/-- Modelled from the spec: flag of the third listed mode. -/
def kMedusa : Nat := 1 <<< 2

/-- Modelled from the spec: flag of the fourth listed mode. -/
def kLookaheadDecoding : Nat := 1 <<< 3

/-- Modelled from the spec: flag of the fifth listed mode. -/
def kExplicitDraftTokens : Nat := 1 <<< 4

/-- Modelled from the spec: a query on the bitset discriminant. -/
def anyBitSet (self : SpeculativeDecodingMode) (bits : Nat) : Bool :=
  (self.mState &&& bits) != 0

/-- Source: `py::init<tr::SpeculativeDecodingMode::UnderlyingType>(), py::arg("state")`: the
constructor from the raw discriminant. -/
def pyInit (state : Nat) : SpeculativeDecodingMode :=
  SpeculativeDecodingMode.mk state

/-- Modelled from the spec: the factory of the mode `None`. -/
def None : SpeculativeDecodingMode := SpeculativeDecodingMode.mk kNone

/-- Modelled from the spec: the factory of the mode `DraftTokensExternal`. -/
def DraftTokensExternal : SpeculativeDecodingMode := SpeculativeDecodingMode.mk kDraftTokensExternal

/-- Modelled from the spec: the factory of the mode `Medusa`. -/
def Medusa : SpeculativeDecodingMode := SpeculativeDecodingMode.mk kMedusa

/-- Modelled from the spec: the factory of the mode `LookaheadDecoding`. -/
def LookaheadDecoding : SpeculativeDecodingMode := SpeculativeDecodingMode.mk kLookaheadDecoding

/-- Modelled from the spec: the factory of the mode `ExplicitDraftTokens`. -/
def ExplicitDraftTokens : SpeculativeDecodingMode := SpeculativeDecodingMode.mk kExplicitDraftTokens

/-- Modelled from the spec: `isNone`, bound as `is_none`. -/
def isNone (self : SpeculativeDecodingMode) : Bool := self.anyBitSet kNone

/-- Modelled from the spec: `isDraftTokensExternal`, bound as `is_draft_tokens_external`. -/
def isDraftTokensExternal (self : SpeculativeDecodingMode) : Bool :=
  self.anyBitSet kDraftTokensExternal

/-- Modelled from the spec: `isMedusa`, bound as `is_medusa`. -/
def isMedusa (self : SpeculativeDecodingMode) : Bool := self.anyBitSet kMedusa

/-- Modelled from the spec: `isLookaheadDecoding`, bound as `is_lookahead_decoding`. -/
def isLookaheadDecoding (self : SpeculativeDecodingMode) : Bool :=
  self.anyBitSet kLookaheadDecoding

/-- Modelled from the spec: `isExplicitDraftTokens`, bound as `is_explicit_draft_tokens`. -/
def isExplicitDraftTokens (self : SpeculativeDecodingMode) : Bool :=
  self.anyBitSet kExplicitDraftTokens

/-- Modelled from the spec: `needsKVCacheRewind`, bound as `needs_kv_cache_rewind`: a
derived predicate of the discriminant, true "exactly for modes where speculative tokens can
be rejected". The spec does not list those modes; their flags are the parameter
`rewindModes`. -/
def needsKVCacheRewind (rewindModes : Nat) (self : SpeculativeDecodingMode) : Bool :=
  self.anyBitSet rewindModes

/-- Modelled from the spec: `needsDecoderPrologue`, bound as `needs_decoder_prologue`: a
derived predicate of the discriminant, true "for modes requiring extra setup". The spec
does not list those modes; their flags are the parameter `prologueModes`. -/
def needsDecoderPrologue (prologueModes : Nat) (self : SpeculativeDecodingMode) : Bool :=
  self.anyBitSet prologueModes

/-- The five shape predicates, in the order of the binding. -/
def shapePredicates (self : SpeculativeDecodingMode) : List Bool :=
  [self.isNone, self.isDraftTokensExternal, self.isMedusa, self.isLookaheadDecoding,
    self.isExplicitDraftTokens]

/-- How many of the five shape predicates hold. -/
def shapeCount (self : SpeculativeDecodingMode) : Nat :=
  (shapePredicates self).count true

end SpeculativeDecodingMode

/-! ## `TllmRuntime` -/

/-- The `py::buffer_info` obtained by `engine_buffer.request()`: start pointer, item size,
number of dimensions and the extent of each dimension. The buffer protocol gives one
non-negative extent per dimension. -/
structure buffer_info where
  ptr : Nat
  itemsize : Nat
  ndim : Nat
  shape : List Nat
  shape_size : shape.length = ndim

/-- The two `tr::RawEngine` constructors the binding calls: from a file path, and from an
address with a size. -/
inductive RawEngine where
  | filePath (engine_path : String)
  | addressWithSize (ptr : Nat) (size : Nat)
  deriving DecidableEq, Repr

/-- A `float` argument, by its bit pattern. -/
structure CFloat where
  bits : Nat
  deriving DecidableEq, Repr

/-- The call `new tr::TllmRuntime(rawEngine, logger, gpuWeightsPercent, useShapeInference)`,
by the arguments it is made with; a null `logger` is `none`. -/
structure TllmRuntime where
  rawEngine : RawEngine
  logger : Option Nat
  gpuWeightsPercent : CFloat
  useShapeInference : Bool
  deriving DecidableEq, Repr

namespace TllmRuntime

/-- The first `py::init` lambda:
`(std::filesystem::path engine_path, float gpu_weights_percent, bool use_shape_inference)`. -/
def pyInitPath (engine_path : String) (gpu_weights_percent : CFloat)
    (use_shape_inference : Bool) : Except String TllmRuntime :=
  .ok (TllmRuntime.mk (RawEngine.filePath engine_path) none gpu_weights_percent
    use_shape_inference)

/-- The second `py::init` lambda:
`(py::buffer engine_buffer, float gpu_weights_percent, bool use_shape_inference)`, on the
`buffer_info` of `engine_buffer`. -/
def pyInitBuffer (info : buffer_info) (gpu_weights_percent : CFloat)
    (use_shape_inference : Bool) : Except String TllmRuntime :=
  if h : info.ndim ≠ 1 then
    .error "Expected 1-D array for engine buffer"
  else
    have h0 : 0 < info.shape.length := by
      rw [info.shape_size]
      omega
    .ok (TllmRuntime.mk (RawEngine.addressWithSize info.ptr (info.shape.get ⟨0, h0⟩)) none
      gpu_weights_percent use_shape_inference)

end TllmRuntime

/-- An empty one-dimensional buffer of four-byte items. -/
def emptyInt32Buffer : buffer_info where
  ptr := 4096
  itemsize := 4
  ndim := 1
  shape := [0]
  shape_size := rfl

/-- A one-dimensional buffer of three four-byte items. -/
def threeInt32Buffer : buffer_info where
  ptr := 4096
  itemsize := 4
  ndim := 1
  shape := [3]
  shape_size := rfl

/-- The byte length of a one-dimensional buffer: element count times item size. -/
def buffer_info.byteLength (info : buffer_info) : Nat :=
  info.shape.headD 0 * info.itemsize

/-! ## `decoder_batch::Request` -/

/-- A `tr::SizeType32`: a signed 32-bit integer. -/
abbrev SizeType32 : Type := { v : Int // -2147483648 ≤ v ∧ v < 2147483648 }

/-- A shared tensor pointer as the bindings hold it: null, or the tensor it refers to,
given by its elements. -/
abbrev TensorPtr := Option (List Int)

/-- The fields of `tr::decoder_batch::Request` that the binding exposes with
`def_readwrite`. -/
structure Request where
  ids : TensorPtr
  inputLen : SizeType32
  maxNewTokens : Option SizeType32
  endId : Option SizeType32
  draftLogits : TensorPtr
  embeddingBias : TensorPtr
  badWordsList : TensorPtr
  stopWordsList : TensorPtr
  generatedTokensPerEngineStep : SizeType32
  medusaPaths : TensorPtr
  medusaTreeIds : TensorPtr
  lookaheadRuntimeConfig : Option (List Int)

namespace Request

/-- Modelled from the spec: the native constructor of `tr::decoder_batch::Request`
(`request.h` is not in the source tree): a request is "created with {initial-ids,
input-length, optional max-new-tokens, optional end-id}". The members the spec says
nothing about are taken from `others`. -/
def native (others : Request) (ids : TensorPtr) (inputLen : SizeType32)
    (maxNewTokens endId : Option SizeType32) : Request :=
  { others with ids := ids, inputLen := inputLen, maxNewTokens := maxNewTokens, endId := endId }

/-- The binding
`py::init<TensorConstPtr, SizeType32, std::optional<SizeType32>, std::optional<SizeType32>>()`
with `py::arg("max_new_tokens") = std::nullopt, py::arg("end_id") = std::nullopt`: an
omitted keyword is `none` and takes the default `std::nullopt`; a supplied one is `some v`,
where `v` is itself an optional (`None` or an integer). -/
def pyInit (others : Request) (ids : TensorPtr) (input_len : SizeType32)
    (max_new_tokens end_id : Option (Option SizeType32)) : Request :=
  native others ids input_len (max_new_tokens.getD none) (end_id.getD none)

end Request

/-! ## `LookaheadDecodingBuffers` and the unpack step -/

/-- The fields of `tr::LookaheadDecodingBuffers` that the binding exposes with
`def_readwrite`. -/
structure LookaheadDecodingBuffers where
  generationLengths : TensorPtr
  positionOffsets : TensorPtr
  packedMasks : TensorPtr
  positionIds : TensorPtr
  deriving DecidableEq, Repr

/-- The error taxonomy of the spec (section 7). -/
inductive SpecError where
  | ConfigurationError
  | AllocationError
  | ValidationInvariantViolation
  deriving DecidableEq, Repr

/-- Modelled from the spec: the unpack step of the batched speculative buffers (the binding
exposes the buffers, the operation is not in the source tree). Slot by slot, "scatter each
slot's accepted-token count back into its Per-Sequence Decoding State"; "any slot whose
accepted count exceeds its proposed generation length is a programming invariant violation
(fatal, not recoverable)", a `ValidationInvariantViolation` that "must abort the batch
rather than silently clamp". The result lists the count scattered to each slot. -/
def unpackSlots : List Int → List Int → Except SpecError (List Int)
  | generationLength :: generationLengths, accepted :: acceptedCounts =>
    if accepted > generationLength then
      .error SpecError.ValidationInvariantViolation
    else
      match unpackSlots generationLengths acceptedCounts with
      | .ok scattered => .ok (accepted :: scattered)
      | .error e => .error e
  | _, _ => .ok []

/-- Modelled from the spec: unpack on the buffers of the binding, whose `generation_lengths`
holds one proposed length per slot. -/
def LookaheadDecodingBuffers.unpack (self : LookaheadDecodingBuffers)
    (acceptedCounts : List Int) : Except SpecError (List Int) :=
  unpackSlots (self.generationLengths.getD []) acceptedCounts

/-! ## `ExplicitDraftTokensBuffers::Inputs` -/

/-- The fields of `tr::ExplicitDraftTokensBuffers::Inputs` that the binding exposes with
`def_readwrite`. -/
structure ExplicitDraftTokensBuffersInputs where
  temperatures : TensorPtr
  positionIdsBase : TensorPtr
  generationLengths : TensorPtr
  randomDataSample : TensorPtr
  randomDataValidation : TensorPtr
  draftTokens : TensorPtr
  draftIndices : TensorPtr
  draftProbs : TensorPtr
  packedMasks : TensorPtr
  positionIds : TensorPtr
  maxGenLengthHost : TensorPtr
  generationLengthsHost : TensorPtr
  deriving DecidableEq, Repr

/-- A write through one of the twelve `def_readwrite` fields of the binding, named as in
the scripting interface. -/
inductive FieldWrite where
  | temperatures (v : TensorPtr)
  | position_ids_base (v : TensorPtr)
  | generation_lengths (v : TensorPtr)
  | random_data_sample (v : TensorPtr)
  | random_data_validation (v : TensorPtr)
  | draft_tokens (v : TensorPtr)
  | draft_indices (v : TensorPtr)
  | draft_probs (v : TensorPtr)
  | packed_masks (v : TensorPtr)
  | position_ids (v : TensorPtr)
  | max_gen_length_host (v : TensorPtr)
  | generation_lengths_host (v : TensorPtr)
  deriving DecidableEq, Repr

namespace ExplicitDraftTokensBuffersInputs

/-- The setter of a `def_readwrite` field: the member named in the binding is assigned,
the others are left alone. -/
def write (self : ExplicitDraftTokensBuffersInputs) : FieldWrite → ExplicitDraftTokensBuffersInputs
  | .temperatures v => { self with temperatures := v }
  | .position_ids_base v => { self with positionIdsBase := v }
  | .generation_lengths v => { self with generationLengths := v }
  | .random_data_sample v => { self with randomDataSample := v }
  | .random_data_validation v => { self with randomDataValidation := v }
  | .draft_tokens v => { self with draftTokens := v }
  | .draft_indices v => { self with draftIndices := v }
  | .draft_probs v => { self with draftProbs := v }
  | .packed_masks v => { self with packedMasks := v }
  | .position_ids v => { self with positionIds := v }
  | .max_gen_length_host v => { self with maxGenLengthHost := v }
  | .generation_lengths_host v => { self with generationLengthsHost := v }

/-- The state after a sequence of writes, starting from the buffers `created` that the native
`create` allocated (`explicitDraftTokensBuffers.h` is not in the source tree; what `create`
allocates is a parameter). -/
def reach (created : ExplicitDraftTokensBuffersInputs) (writes : List FieldWrite) :
    ExplicitDraftTokensBuffersInputs :=
  writes.foldl write created

/-- The generation lengths of the active slots: a slot is inert when its generation length
is zero. -/
def activeGenerationLengths (self : ExplicitDraftTokensBuffersInputs) : List Int :=
  (self.generationLengthsHost.getD []).filter (fun g => g ≠ 0)

/-- The maximum over the active slots of their generation lengths, and 0 when all slots
are inert. -/
def maxActiveGenerationLength (self : ExplicitDraftTokensBuffersInputs) : Int :=
  match self.activeGenerationLengths with
  | [] => 0
  | g :: gs => gs.foldl max g

/-- The host-mirrored scalar: the element of `max_gen_length_host`, when it has one. -/
def hostMaxGenLength (self : ExplicitDraftTokensBuffersInputs) : Option Int :=
  self.maxGenLengthHost.bind List.head?

/-- The invariant of the spec: the host-mirrored max generation length is the maximum over
the active slots of the per-slot generation lengths (0 when all slots are inert). -/
def MaxGenLengthInvariant (self : ExplicitDraftTokensBuffersInputs) : Prop :=
  self.hostMaxGenLength = some self.maxActiveGenerationLength

instance (self : ExplicitDraftTokensBuffersInputs) : Decidable (MaxGenLengthInvariant self) :=
  inferInstanceAs (Decidable (_ = _))

/-- Whether a write leaves both `max_gen_length_host` and `generation_lengths_host` alone. -/
def FieldWriteKeepsLengths : FieldWrite → Bool
  | .max_gen_length_host _ => false
  | .generation_lengths_host _ => false
  | _ => true

/-- Buffers with two inert slots and a zero host maximum. -/
def twoInertSlots : ExplicitDraftTokensBuffersInputs where
  temperatures := some [0, 0]
  positionIdsBase := some [0, 0]
  generationLengths := some [0, 0]
  randomDataSample := some [0, 0]
  randomDataValidation := some [0, 0]
  draftTokens := some [0, 0]
  draftIndices := some [0, 0]
  draftProbs := some [0, 0]
  packedMasks := some [0, 0]
  positionIds := some [0, 0]
  maxGenLengthHost := some [0]
  generationLengthsHost := some [0, 0]

end ExplicitDraftTokensBuffersInputs

/-! ## Theorems: the `PyITensor` trampoline -/

/-- C1: the source of `PyITensor::resize` does not hand `newSize` to the override. On a
scripting-side tensor of size 0 whose `resize(new_size)` sets the size, the native call
`resize(5)` reaches the override with an empty argument list: it raises and the size stays 0,
whereas the same override called with the one argument 5 sets the size to 5. The result of
`resize` never depends on `newSize`: the override is called with no argument, while
`reshape(dims)` calls its override with `dims`. -/
theorem C1_resize_drops_newSize :
    PyITensor.resize sizedSubclass 5 0
        = (.error "TypeError: resize() takes exactly one argument", 0)
      ∧ (sizedSubclass.attr "resize").map (fun f => f [PyObj.int 5] 0)
        = some (.ok PyObj.none, 5)
      ∧ (∀ (σ : Type) (self : PySubclass σ) (n m : Nat) (st : σ),
          PyITensor.resize self n st = PyITensor.resize self m st)
      ∧ (∀ (σ : Type) (self : PySubclass σ) (n : Nat) (st : σ),
          PyITensor.resize self n st = PYBIND11_OVERRIDE_PURE self "ITensor" "resize" [] st)
      ∧ (∀ (σ : Type) (self : PySubclass σ) (dims : List Int) (st : σ),
          PyITensor.reshape self dims st
            = PYBIND11_OVERRIDE_PURE self "ITensor" "reshape" [PyObj.shape dims] st) :=
  ⟨rfl, rfl, fun _ _ _ _ _ => rfl, fun _ _ _ _ => rfl, fun _ _ _ _ => rfl⟩

/-- C10: every one of the eleven virtual operations is pure. The call looks up the override
of the operation's name; when the subclass defines it, the call returns what that override
returns on the forwarded arguments; when it defines none, the call fails with the error
`Tried to call pure virtual function "ITensor::<name>"` and leaves the state alone. There
is no third outcome, so no native default is ever returned. -/
theorem C10_virtual_operations_pure (σ : Type) (self : PySubclass σ) (op : VirtualOp) (st : σ) :
    PyITensor.call self op st =
      match self.attr op.pyName with
      | some override => override op.pyArgs st
      | none => (.error ("Tried to call pure virtual function \"ITensor::" ++ op.pyName ++ "\""), st) := by
  cases op <;> rfl

/-! ## Theorems: `BufferManager` -/

namespace SpeculativeDecodingMode

/-- A flag inside the five mode bits sees only the state modulo 32. -/
theorem land_flag_mod (state k : Nat) (hk : 31 &&& k = k) :
    state &&& k = (state % 32) &&& k := by
  have h31 : state % 32 = state &&& 31 := by
    have h := Nat.and_pow_two_sub_one_eq_mod state 5
    simpa using h.symm
  rw [h31, Nat.land_assoc, hk]

/-- The shape predicates of a raw state are those of the state modulo 32. -/
theorem shapePredicates_mod (state : Nat) :
    shapePredicates (pyInit state) = shapePredicates (pyInit (state % 32)) := by
  simp only [shapePredicates, isNone, isDraftTokensExternal, isMedusa, isLookaheadDecoding,
    isExplicitDraftTokens, anyBitSet, pyInit, kNone, kDraftTokensExternal, kMedusa,
    kLookaheadDecoding, kExplicitDraftTokens]
  rw [land_flag_mod state (1 <<< 0) (by decide), land_flag_mod state (1 <<< 1) (by decide),
    land_flag_mod state (1 <<< 2) (by decide), land_flag_mod state (1 <<< 3) (by decide),
    land_flag_mod state (1 <<< 4) (by decide)]

/-- Below 32, exactly one shape predicate holds only at the five single flags. -/
theorem shapeCount_below_32 :
    ∀ r : Fin 32, shapeCount (pyInit r.val) = 1 ↔ r.val ∈ [1, 2, 4, 8, 16] := by
  decide

end SpeculativeDecodingMode

/-- C2: each of the five factories returns a value on which exactly one of the five shape
predicates holds, the one of the same name, and the five values are pairwise distinct. -/
theorem C2_factories_have_one_shape :
    SpeculativeDecodingMode.shapePredicates SpeculativeDecodingMode.None
        = [true, false, false, false, false]
      ∧ SpeculativeDecodingMode.shapePredicates SpeculativeDecodingMode.DraftTokensExternal
        = [false, true, false, false, false]
      ∧ SpeculativeDecodingMode.shapePredicates SpeculativeDecodingMode.Medusa
        = [false, false, true, false, false]
      ∧ SpeculativeDecodingMode.shapePredicates SpeculativeDecodingMode.LookaheadDecoding
        = [false, false, false, true, false]
      ∧ SpeculativeDecodingMode.shapePredicates SpeculativeDecodingMode.ExplicitDraftTokens
        = [false, false, false, false, true]
      ∧ List.Pairwise (fun a b => a ≠ b)
        [SpeculativeDecodingMode.None, SpeculativeDecodingMode.DraftTokensExternal,
          SpeculativeDecodingMode.Medusa, SpeculativeDecodingMode.LookaheadDecoding,
          SpeculativeDecodingMode.ExplicitDraftTokens] := by
  decide

/-- On a one-dimensional buffer the buffer constructor succeeds with the engine built over
the start pointer and the extent of the single dimension. -/
theorem pyInitBuffer_of_shape (ptr itemsize n : Nat) (hs : [n].length = 1)
    (g : CFloat) (u : Bool) :
    TllmRuntime.pyInitBuffer ⟨ptr, itemsize, 1, [n], hs⟩ g u
      = .ok (TllmRuntime.mk (RawEngine.addressWithSize ptr n) none g u) := by
  simp [TllmRuntime.pyInitBuffer]

/-- The shape of a one-dimensional buffer is a single extent. -/
theorem buffer_info.shape_of_ndim_one (info : buffer_info) (h : info.ndim = 1) :
    ∃ n, info.shape = [n] := by
  have hl : info.shape.length = 1 := by rw [info.shape_size, h]
  match hsh : info.shape, hl with
  | [n], _ => exact ⟨n, rfl⟩

/-- C8: the buffer constructor fails with `Expected 1-D array for engine buffer` if and
only if the number of dimensions of the buffer is not 1; it yields a runtime object (and the
engine inside it) if and only if the number of dimensions is 1, so in the failing case
nothing is created and a one-dimensional buffer never fails the check. -/
theorem C8_buffer_dimension_check (info : buffer_info) (g : CFloat) (u : Bool) :
    (TllmRuntime.pyInitBuffer info g u = .error "Expected 1-D array for engine buffer"
        ↔ info.ndim ≠ 1)
      ∧ ((∃ runtime, TllmRuntime.pyInitBuffer info g u = .ok runtime) ↔ info.ndim = 1)
      ∧ ((∃ e, TllmRuntime.pyInitBuffer info g u = .error e) ↔ info.ndim ≠ 1) := by
  by_cases h : info.ndim = 1
  · have hok : ∃ runtime, TllmRuntime.pyInitBuffer info g u = .ok runtime := by
      unfold TllmRuntime.pyInitBuffer
      rw [dif_neg (not_not.mpr h)]
      exact ⟨_, rfl⟩
    obtain ⟨runtime, hr⟩ := hok
    refine ⟨⟨fun he => ?_, fun hn => absurd h hn⟩, ⟨fun _ => h, fun _ => ⟨runtime, hr⟩⟩,
      ⟨fun he => ?_, fun hn => absurd h hn⟩⟩
    · rw [hr] at he
      cases he
    · obtain ⟨e, he⟩ := he
      rw [hr] at he
      cases he
  · have herr : TllmRuntime.pyInitBuffer info g u
        = .error "Expected 1-D array for engine buffer" := by
      unfold TllmRuntime.pyInitBuffer
      rw [dif_pos h]
    refine ⟨⟨fun _ => h, fun _ => herr⟩, ⟨fun hex => ?_, fun h1 => absurd h1 h⟩,
      ⟨fun _ => h, fun _ => ⟨_, herr⟩⟩⟩
    obtain ⟨runtime, hr⟩ := hex
    rw [herr] at hr
    cases hr

/-- C9, as stated, fails on an empty buffer: a one-dimensional buffer of zero four-byte
items is accepted, the engine is built with size 0, and 0 is also the byte length of the
buffer although the item size is 4, not 1. -/
theorem C9_empty_buffer_size_is_byte_length :
    TllmRuntime.pyInitBuffer emptyInt32Buffer ⟨1065353216⟩ true
        = .ok (TllmRuntime.mk (RawEngine.addressWithSize 4096 0) none ⟨1065353216⟩ true)
      ∧ emptyInt32Buffer.byteLength = 0
      ∧ emptyInt32Buffer.itemsize = 4
      ∧ ¬ ((0 : Nat) = emptyInt32Buffer.byteLength ↔ emptyInt32Buffer.itemsize = 1) := by
  refine ⟨?_, by decide, by decide, by decide⟩
  exact pyInitBuffer_of_shape 4096 4 0 rfl ⟨1065353216⟩ true

/-- C9, amended: for every one-dimensional buffer the buffer constructor builds the engine
over the start pointer of the buffer with size `shape[0]`, passes a null logger and passes
`gpu_weights_percent` and `use_shape_inference` through unchanged; this size equals the byte
length `shape[0] * itemsize` exactly when the item size is 1 or the buffer is empty. The path
constructor passes a null logger and the two other arguments unchanged as well. -/
theorem C9_engine_size_is_first_extent (info : buffer_info) (g : CFloat) (u : Bool)
    (h : info.ndim = 1) :
    ∃ n : Nat,
      info.shape = [n]
        ∧ TllmRuntime.pyInitBuffer info g u
          = .ok (TllmRuntime.mk (RawEngine.addressWithSize info.ptr n) none g u)
        ∧ (n = info.byteLength ↔ info.itemsize = 1 ∨ n = 0)
        ∧ ∀ engine_path : String,
            TllmRuntime.pyInitPath engine_path g u
              = .ok (TllmRuntime.mk (RawEngine.filePath engine_path) none g u) := by
  obtain ⟨n, hn⟩ := buffer_info.shape_of_ndim_one info h
  obtain ⟨ptr, itemsize, ndim, shape, hs⟩ := info
  simp only at h hn
  subst h
  subst hn
  refine ⟨n, rfl, pyInitBuffer_of_shape ptr itemsize n hs g u, ?_, fun _ => rfl⟩
  simp only [buffer_info.byteLength, List.headD_cons]
  constructor
  · intro he
    rcases Nat.eq_zero_or_pos n with h0 | hpos
    · exact Or.inr h0
    · left
      have h1 : n * 1 = n * itemsize := by rw [Nat.mul_one]; exact he
      exact (Nat.eq_of_mul_eq_mul_left hpos h1).symm
  · rintro (h1 | h0)
    · rw [h1, Nat.mul_one]
    · rw [h0, Nat.zero_mul]

/-- Witness for C9: a buffer of three four-byte items is one-dimensional. -/
theorem C9_engine_size_is_first_extent_witness :
    threeInt32Buffer.ndim = 1
      ∧ ∃ n : Nat,
        threeInt32Buffer.shape = [n]
          ∧ TllmRuntime.pyInitBuffer threeInt32Buffer ⟨1065353216⟩ false
            = .ok (TllmRuntime.mk (RawEngine.addressWithSize threeInt32Buffer.ptr n) none
              ⟨1065353216⟩ false)
          ∧ (n = threeInt32Buffer.byteLength ↔ threeInt32Buffer.itemsize = 1 ∨ n = 0)
          ∧ ∀ engine_path : String,
              TllmRuntime.pyInitPath engine_path ⟨1065353216⟩ false
                = .ok (TllmRuntime.mk (RawEngine.filePath engine_path) none
                  ⟨1065353216⟩ false) :=
  ⟨rfl, C9_engine_size_is_first_extent threeInt32Buffer ⟨1065353216⟩ false rfl⟩

/-! ## Theorems: `decoder_batch::Request` -/

/-- C4: a request constructed with the two optional arguments omitted has `max_new_tokens`
and `end_id` both absent, and for all arguments, supplied or omitted, the four fields read
back are the `ids` and `input_len` passed and the `max_new_tokens` and `end_id` passed
(absent when omitted). -/
theorem C4_request_fields_as_constructed (others : Request) (ids : TensorPtr)
    (input_len : SizeType32) :
    (Request.pyInit others ids input_len none none).maxNewTokens = none
      ∧ (Request.pyInit others ids input_len none none).endId = none
      ∧ (Request.pyInit others ids input_len none none).ids = ids
      ∧ (Request.pyInit others ids input_len none none).inputLen = input_len
      ∧ (∀ max_new_tokens end_id : Option SizeType32,
          (Request.pyInit others ids input_len (some max_new_tokens) (some end_id)).ids = ids
          ∧ (Request.pyInit others ids input_len (some max_new_tokens) (some end_id)).inputLen
            = input_len
          ∧ (Request.pyInit others ids input_len (some max_new_tokens) (some end_id)).maxNewTokens
            = max_new_tokens
          ∧ (Request.pyInit others ids input_len (some max_new_tokens) (some end_id)).endId
            = end_id)
      ∧ (∀ max_new_tokens end_id : Option (Option SizeType32),
          (Request.pyInit others ids input_len max_new_tokens end_id).ids = ids
          ∧ (Request.pyInit others ids input_len max_new_tokens end_id).inputLen = input_len
          ∧ (Request.pyInit others ids input_len max_new_tokens end_id).maxNewTokens
            = max_new_tokens.getD none
          ∧ (Request.pyInit others ids input_len max_new_tokens end_id).endId
            = end_id.getD none) :=
  ⟨rfl, rfl, rfl, rfl, fun _ _ => ⟨rfl, rfl, rfl, rfl⟩, fun _ _ => ⟨rfl, rfl, rfl, rfl⟩⟩

/-! ## Theorems: the unpack step -/

/-- The unpack loop fails exactly when some slot has more accepted than proposed tokens,
and otherwise scatters the accepted counts as they are. -/
theorem unpackSlots_eq (generationLengths acceptedCounts : List Int) :
    unpackSlots generationLengths acceptedCounts =
      if ∃ p ∈ generationLengths.zip acceptedCounts, p.2 > p.1 then
        .error SpecError.ValidationInvariantViolation
      else
        .ok ((generationLengths.zip acceptedCounts).map Prod.snd) := by
  induction generationLengths generalizing acceptedCounts with
  | nil => simp [unpackSlots]
  | cons g gs ih =>
    cases acceptedCounts with
    | nil => simp [unpackSlots]
    | cons a as =>
      rw [unpackSlots, ih as]
      by_cases hag : a > g
      · simp [hag]
      · by_cases hrest : ∃ p ∈ gs.zip as, p.2 > p.1
        · have hall : ∃ p ∈ (g :: gs).zip (a :: as), p.2 > p.1 := by
            obtain ⟨p, hp, hgt⟩ := hrest
            exact ⟨p, by simp [hp], hgt⟩
          rw [if_neg hag, if_pos hrest, if_pos hall]
        · have hall : ¬ ∃ p ∈ (g :: gs).zip (a :: as), p.2 > p.1 := by
            rintro ⟨p, hp, hgt⟩
            simp only [List.zip_cons_cons, List.mem_cons] at hp
            rcases hp with hp | hp
            · subst hp
              exact hag hgt
            · exact hrest ⟨p, hp, hgt⟩
          rw [if_neg hag, if_neg hrest, if_neg hall]
          simp

/-- C7: at unpack time, unpack succeeds if and only if every slot's accepted count is at
most its generation length, and it then scatters the accepted counts unchanged (nothing is
clamped); it raises `ValidationInvariantViolation` if and only if some slot's accepted count
exceeds its generation length; and it raises no other error. -/
theorem C7_unpack_rejects_excess_accepted (self : LookaheadDecodingBuffers)
    (acceptedCounts : List Int) :
    ((∃ scattered, self.unpack acceptedCounts = .ok scattered)
        ↔ ∀ p ∈ (self.generationLengths.getD []).zip acceptedCounts, p.2 ≤ p.1)
      ∧ (self.unpack acceptedCounts
          = .ok (((self.generationLengths.getD []).zip acceptedCounts).map Prod.snd)
        ↔ ∀ p ∈ (self.generationLengths.getD []).zip acceptedCounts, p.2 ≤ p.1)
      ∧ (self.unpack acceptedCounts = .error SpecError.ValidationInvariantViolation
        ↔ ∃ p ∈ (self.generationLengths.getD []).zip acceptedCounts, p.2 > p.1)
      ∧ ∀ e, self.unpack acceptedCounts ≠ .error e
          ∨ e = SpecError.ValidationInvariantViolation := by
  unfold LookaheadDecodingBuffers.unpack
  rw [unpackSlots_eq]
  by_cases hex : ∃ p ∈ (self.generationLengths.getD []).zip acceptedCounts, p.2 > p.1
  · have hnall : ¬ ∀ p ∈ (self.generationLengths.getD []).zip acceptedCounts, p.2 ≤ p.1 := by
      intro hall
      obtain ⟨p, hp, hgt⟩ := hex
      exact absurd (hall p hp) (not_le.mpr hgt)
    rw [if_pos hex]
    refine ⟨⟨fun h => ?_, fun h => absurd h hnall⟩, ⟨fun h => ?_, fun h => absurd h hnall⟩,
      ⟨fun _ => hex, fun _ => rfl⟩, fun e => ?_⟩
    · obtain ⟨_, h⟩ := h
      cases h
    · cases h
    · by_cases he : e = SpecError.ValidationInvariantViolation
      · exact Or.inr he
      · left
        intro h
        injection h with h
        exact he h.symm
  · have hall : ∀ p ∈ (self.generationLengths.getD []).zip acceptedCounts, p.2 ≤ p.1 := by
      intro p hp
      by_contra hlt
      exact hex ⟨p, hp, not_le.mp hlt⟩
    rw [if_neg hex]
    refine ⟨⟨fun _ => hall, fun _ => ⟨_, rfl⟩⟩, ⟨fun _ => hall, fun _ => rfl⟩,
      ⟨fun h => ?_, fun h => absurd h hex⟩, fun e => Or.inl ?_⟩
    · cases h
    · intro h
      cases h

/-! ## Theorems: `ExplicitDraftTokensBuffers::Inputs` -/

namespace ExplicitDraftTokensBuffersInputs

/-- A write to a field other than the two length fields leaves both of them alone. -/
theorem write_keeps_lengths (self : ExplicitDraftTokensBuffersInputs) (w : FieldWrite)
    (hw : FieldWriteKeepsLengths w = true) :
    (self.write w).maxGenLengthHost = self.maxGenLengthHost
      ∧ (self.write w).generationLengthsHost = self.generationLengthsHost := by
  cases w <;> first | exact ⟨rfl, rfl⟩ | simp [FieldWriteKeepsLengths] at hw

/-- A write to a field other than the two length fields keeps the invariant. -/
theorem write_keeps_invariant (self : ExplicitDraftTokensBuffersInputs) (w : FieldWrite)
    (hw : FieldWriteKeepsLengths w = true) (hinv : MaxGenLengthInvariant self) :
    MaxGenLengthInvariant (self.write w) := by
  obtain ⟨h1, h2⟩ := write_keeps_lengths self w hw
  unfold MaxGenLengthInvariant hostMaxGenLength maxActiveGenerationLength
    activeGenerationLengths at hinv ⊢
  rw [h1, h2]
  exact hinv

end ExplicitDraftTokensBuffersInputs

end TensorrtLlm
